import Mathlib

/-!
# Verification of the Discord GOG-Galaxy plugin automation core

Shallow embedding of `src/discord.py`: the devtools WebSocket protocol
client, the process supervisor, the retry entry point, the storage
extractor, the inventory builder and the social-graph scraper, together
with theorems settling the specification claims.
-/

namespace DiscordPlugin

/-! ## Constants (module-level constants of `discord.py`) -/

/-- `DEBUGGING_PORT = 31337`. -/
def DEBUGGING_PORT : Nat := 31337

/-- `RESTART_DISCORD = True`: the module constant forcing a relaunch. -/
def RESTART_DISCORD : Bool := true

/-- The command-line argument `--remote-debugging-port=<DEBUGGING_PORT>`
appended on relaunch and checked in `prepare_and_discover_discord`. -/
def debugging_port_arg : String :=
  "--remote-debugging-port=" ++ toString DEBUGGING_PORT

/-! ## Protocol frames

`create_ws_json` in the source builds the JSON text of a command request.
We embed the frame structurally: the source emits exactly the fields
`id` (hard-coded to the literal `1`), `method`, and optionally `params`. -/

/-- A command request frame as built by `create_ws_json`. -/
structure WsRequest where
  id : Nat
  method : String
  params : Option String
deriving DecidableEq

/-- `create_ws_json(method, params=None)`: builds a request frame whose
`id` field is the literal `1` (the source never varies it). -/
def create_ws_json (method : String) (params : Option String) : WsRequest :=
  { id := 1, method := method, params := params }

/-- The correlation ids of the sequence of request frames a connection
sends, one per `(method, params)` call to `create_ws_json`. -/
def connection_request_ids (calls : List (String × Option String)) : List Nat :=
  calls.map (fun c => (create_ws_json c.1 c.2).id)

/-! ## A minimal JSON value model for response frames -/

/-- JSON values, as far as the response-handling code inspects them. -/
inductive Json where
  | null : Json
  | str (s : String) : Json
  | num (n : Int) : Json
  | arr (elems : List Json) : Json
  | obj (fields : List (String × Json)) : Json

/-- `key in json.loads(resp)`: top-level object key membership. -/
def hasKey (j : Json) (k : String) : Bool :=
  match j with
  | Json.obj fields => fields.any (fun f => f.1 == k)
  | _ => false

/-- Indexing a parsed JSON object by a key (`d[k]`), `none` when absent
or not an object. -/
def jsonGet (j : Json) (k : String) : Option Json :=
  match j with
  | Json.obj fields => fields.lookup k
  | _ => none

/-- The receive loop shared by `get_data_from_local_cache` and
`get_friends`:

    while True:
        resp = ws.recv()
        if 'result' in json.loads(resp):
            break

modelled over the stream of incoming (already-parsed) frames; `none`
when the stream ends with no frame containing a `result` key (the
Python loop would block forever). -/
def recv_until_result : List Json → Option Json
  | [] => none
  | r :: rest => if hasKey r "result" then some r else recv_until_result rest

/-- `resp_dict['result']['result']['value']` of
`get_data_from_local_cache`. -/
def response_value (j : Json) : Option Json := do
  let r ← jsonGet j "result"
  let r2 ← jsonGet r "result"
  jsonGet r2 "value"

/-! ## ProcessSupervisor: `prepare_and_discover_discord`

The per-process branch of the loop over `psutil.process_iter()`:

    if len(proc.cmdline()) < 3 or RESTART_DISCORD:
        if len(proc.cmdline()) == 1 or (RESTART_DISCORD and len(proc.cmdline()) == 2):
            ... kill, relaunch with the debugging argument, scan output ...
            return
        if proc.cmdline()[1] == f"--remote-debugging-port={DEBUGGING_PORT}":
            return

We embed what is decided for one matching process. (`proc.cmdline()[1]`
is embedded as `cmdline.get? 1`; the source would raise `IndexError` on
a command line shorter than 2 entries in that branch, which is only
reachable with `RESTART_DISCORD = False`.) -/

/-- What `prepare_and_discover_discord` does with one matching process. -/
inductive SupervisorAction where
  /-- The process is killed and relaunched with the debugging argument. -/
  | relaunch : SupervisorAction
  /-- Debugging is treated as already enabled: return, no kill. -/
  | alreadyDebugging : SupervisorAction
  /-- Neither branch taken: the loop moves on to the next process. -/
  | skip : SupervisorAction
deriving DecidableEq

/-- The decision `prepare_and_discover_discord` takes for a matching
process with command line `cmdline`, given the `RESTART_DISCORD` flag. -/
def prepare_and_discover_decision (restart_discord : Bool)
    (cmdline : List String) : SupervisorAction :=
  if cmdline.length < 3 || restart_discord then
    if cmdline.length == 1 || (restart_discord && cmdline.length == 2) then
      SupervisorAction.relaunch
    else if cmdline.get? 1 == some debugging_port_arg then
      SupervisorAction.alreadyDebugging
    else
      SupervisorAction.skip
  else
    SupervisorAction.skip

/-- The fixed text `DEVTOOLS_BROWSER_LAUNCH_OUTPUT_REGEX` matches before
its capture group: `DevTools listening on ws://127.0.0.1:<PORT>/devtools/browser/`. -/
def devtools_output_head : String :=
  "DevTools listening on ws://127.0.0.1:" ++ toString DEBUGGING_PORT ++
    "/devtools/browser/"

/-- Python `subject.startswith(head)`, over code points. -/
def starts_with_chars : List Char → List Char → Bool
  | _, [] => true
  | [], _ :: _ => false
  | c :: cs, d :: ds => c == d && starts_with_chars cs ds

/-- Python `subject.startswith(head)` on strings. -/
def py_startswith (subject head : String) : Bool :=
  starts_with_chars subject.toList head.toList

/-- `re.search(DEVTOOLS_BROWSER_LAUNCH_OUTPUT_REGEX, output)`: the regex
is the fixed head followed by the greedy group `(.+)`, so a match yields
the non-empty remainder of the line after the head. -/
def devtools_search (line : String) : Option String :=
  if py_startswith line devtools_output_head &&
      devtools_output_head.toList.length < line.toList.length then
    some (String.mk (line.toList.drop devtools_output_head.toList.length))
  else
    none

/-- Failure kinds the specification assigns to the process supervisor. -/
inductive SupervisorError where
  | processNotFound : SupervisorError
  | launchFailed : SupervisorError
deriving DecidableEq

/-- The output-scan loop after the relaunch:

    while True:
        output = process.stdout.readline().decode("UTF-8")
        if output == "" and process.poll() is not None:
            break
        if output.startswith("DevTools listening on"):
            devtools_url = re.search(DEVTOOLS_BROWSER_LAUNCH_OUTPUT_REGEX, output)
            break

over the list of lines the process emits before exiting; the empty list
case is the end-of-stream/process-exited break, which leaves
`devtools_url` unset (`None`). -/
def launch_output_scan : List String → Option String
  | [] => none
  | line :: rest =>
    if py_startswith line "DevTools listening on" then devtools_search line
    else launch_output_scan rest

/-- The relaunch-and-scan tail of `prepare_and_discover_discord`: after
the loop the function logs success and returns; no code path raises, so
the outcome is always `Except.ok` carrying whatever `devtools_url`
(possibly `none`) the scan produced. -/
def relaunch_and_scan (lines : List String) :
    Except SupervisorError (Option String) :=
  Except.ok (launch_output_scan lines)

/-! ## Inventory: data types shared by `get_games` and the snapshot -/

/-- The two fields of `galaxy.api.types.Game` the plugin fills from the
metadata file (`Game(app_info["application_id"], app_info["name"], ...)`). -/
structure Game where
  game_id : String
  game_title : String
deriving DecidableEq

/-- `galaxy.api.types.FriendInfo(user_id, user_name)` as constructed by
`get_friends`. -/
structure FriendInfo where
  user_id : String
  user_name : String
deriving DecidableEq

/-! ## RetryOrchestrator: `start`

    async def start(rec_tries=0):
        if rec_tries > 100:
            log.debug("DISCORD_SCRAPE_FAILED: ...")
            raise InvalidCredentials()
        ws = websocket.WebSocket()
        ws.connect(ws_url)
        returned_from_trio_run = (await get_games(ws), await get_friends(ws),
                                  await get_user_email(ws))

`rec_tries` is never incremented and no exception is caught: the
connection is attempted once, and any failure of `ws.connect` or of the
scraping propagates to the caller. We embed the connect attempt and the
scrape body as `Except` values supplied by the environment. -/

/-- The specification's failure taxonomy. The source's
`InvalidCredentials` raised on `rec_tries > 100` plays the role of
`maxRetriesExceeded`. -/
inductive ScrapeError where
  | handshakeFailed : ScrapeError
  | processNotFound : ScrapeError
  | launchFailed : ScrapeError
  | debugPortTimeout : ScrapeError
  | remoteError : ScrapeError
  | protocolTimeout : ScrapeError
  | malformedResponse : ScrapeError
  | maxRetriesExceeded : ScrapeError
deriving DecidableEq

/-- The tuple `(games, friends, email)` stored into
`returned_from_trio_run`. -/
def ScrapeResult : Type := List Game × List FriendInfo × String

/-- `start(rec_tries)`: raise `InvalidCredentials` when `rec_tries > 100`,
otherwise connect once and run the scrape; both steps propagate their
failures unchanged (there is no retry call anywhere in the body). -/
def start (rec_tries : Nat) (connect : Except ScrapeError Unit)
    (scrape : Except ScrapeError ScrapeResult) :
    Except ScrapeError ScrapeResult :=
  if rec_tries > 100 then
    Except.error ScrapeError.maxRetriesExceeded
  else
    match connect with
    | Except.error e => Except.error e
    | Except.ok _ => scrape

/-! ## StorageExtractor: `get_data_from_local_cache` -/

/-- `secrets.token_urlsafe(20).replace("-", "_")`: the sanitisation the
source applies to the random token before using it as an identifier. -/
def nonce_of_token (token : String) : String := token.replace "-" "_"

/-- The parameters of one generated extraction script: the randomized
helper identifier suffix (`nonce`) and the requested store key (`data`). -/
structure ExtractionScript where
  nonce : String
  data : String

/-- The JavaScript text interpolated by `get_data_from_local_cache`
(braces and single quotes written with `\xNN` escapes). The nonce
occurs exactly twice, as the suffix of the helper function's name at
its definition and at its only call; the key occurs once, as the final
property access. -/
def get_data_script (nonce data : String) : String :=
  "\n            (function () \x7b\n              function g_" ++ nonce ++
    "() \x7b\n                  const iframe = document.createElement(\x27iframe\x27);\n" ++
    "                  document.body.append(iframe);\n" ++
    "                  const pd = Object.getOwnPropertyDescriptor(iframe.contentWindow, \x27localStorage\x27);\n" ++
    "                  iframe.remove();\n                  return pd;\n" ++
    "                \x7d;\n            return g_" ++ nonce ++
    "().get.apply()." ++ data ++ "      \n        \x7d)()"

/-- Rendering an `ExtractionScript` to the JavaScript text sent inside
the `Runtime.evaluate` frame. -/
def ExtractionScript.render (s : ExtractionScript) : String :=
  get_data_script s.nonce s.data

/-- The one helper the generated script defines: capture the
`localStorage` property descriptor through a briefly-attached iframe. -/
inductive JsHelper where
  | captureLocalStorageDescriptor : JsHelper
deriving DecidableEq

/-- Modelled from the spec: evaluation of the generated script inside
the client's JavaScript session (the remote engine is outside this
repository). The script defines a helper function named `g_<nonce>` in
its local scope, immediately calls it by that same name to obtain the
captured `localStorage` property descriptor, applies the descriptor's
getter unbound — which, the getter not validating its receiver, yields
the main context's own store — and indexes the store by the requested
key. The session's store is the map `store`; the result is the stored
serialized value for the key, `none` when absent. -/
def eval_extraction_script (store : String → Option String)
    (s : ExtractionScript) : Option String :=
  let env : List (String × JsHelper) :=
    [("g_" ++ s.nonce, JsHelper.captureLocalStorageDescriptor)]
  match env.lookup ("g_" ++ s.nonce) with
  | some JsHelper.captureLocalStorageDescriptor => store s.data
  | none => none

/-- Modelled from the spec: the `Runtime.evaluate` response frame the
session answers with — the evaluated value wrapped as
`{"id": ..., "result": {"result": {"value": <v>}}}`. -/
def session_response (store : String → Option String)
    (s : ExtractionScript) : Json :=
  Json.obj [("id", Json.num 1),
    ("result", Json.obj [("result", Json.obj [("value",
      match eval_extraction_script store s with
      | some v => Json.str v
      | none => Json.null)])])]

/-- `get_data_from_local_cache(ws, data)` against a session whose store
is `store`: send the generated script (with helper identifier `nonce`),
run the receive loop until a frame with a `result` key arrives, and
return `resp_dict['result']['result']['value']`. -/
def get_data_from_local_cache (store : String → Option String)
    (nonce data : String) : Option Json :=
  match recv_until_result [session_response store ⟨nonce, data⟩] with
  | some resp => response_value resp
  | none => none

/-! ## InventoryBuilder: `get_games` -/

/-- The parsed `_state` of the `InstallationManagerStore` blob:
`json.loads(games_json)["_state"]["installationPaths"]`. -/
structure InstallationManagerStore where
  installationPaths : List String

/-- The two fields `get_games` reads from `application_info.json`
(the source assumes the file parses and has both). -/
structure AppInfo where
  application_id : String
  name : String

/-- The filesystem operations `get_games` performs: `os.path.isdir`,
`os.listdir`, `os.path.isfile`, and reading + JSON-parsing a metadata
file. -/
structure FileSystem where
  is_dir : String → Bool
  listdir : String → List String
  is_file : String → Bool
  read_app_info : String → AppInfo

/-- `os.path.join` with the POSIX separator. -/
def path_join (a b : String) : String := a ++ "/" ++ b

/-- `get_games`, minus logging: return `[]` when `installationPaths` is
empty, otherwise walk each root that is a directory, each immediate
subdirectory, and append one `Game` per `application_info.json` found. -/
def get_games (fs : FileSystem) (st : InstallationManagerStore) :
    List Game :=
  if st.installationPaths.isEmpty then []
  else
    st.installationPaths.flatMap (fun path =>
      if fs.is_dir path then
        (fs.listdir path).flatMap (fun folder =>
          if fs.is_dir (path_join path folder) then
            let info_file_path :=
              path_join (path_join path folder) "application_info.json"
            if fs.is_file info_file_path then
              let app_info := fs.read_app_info info_file_path
              [{ game_id := app_info.application_id,
                 game_title := app_info.name }]
            else []
          else [])
      else [])

/-! ## SocialGraphScraper: the row extraction of `get_friends`

The source extracts element text with

    re.search(r'<span class=".+">(.+)</span>', str(username))[1]
    re.search(r'<span class=".+">#(.+)</span>', str(discriminator))[1]

We embed Python's `re.search` semantics for exactly these two patterns:
leftmost match position, greedy `.+` with backtracking, `.` matching
any character except newline. -/

/-- Match a literal against the head of the subject, returning the rest. -/
def matchLit : List Char → List Char → Option (List Char)
  | [], s => some s
  | _ :: _, [] => none
  | c :: cs, d :: ds => if c == d then matchLit cs ds else none

/-- The candidate matches of the greedy fragment `.+` against a leading
part of `l`: all splits `l = a ++ b` with `a` non-empty and
newline-free, longest `a` first (greedy repetition backtracks from the
longest candidate; `.` does not match newline). -/
def dot_plus_splits (l : List Char) : List (List Char × List Char) :=
  ((List.range l.length).map (fun k => l.length - k)).filterMap (fun i =>
    let a := l.take i
    if a.all (fun c => c != '\n') then some (a, l.drop i) else none)

/-- The tail of the row pattern after the literal `<span class="`:
greedy `.+` for the class attribute, the literal `mid` (`">` in the
username pattern, `">#` in the discriminator pattern), the greedy
capture group `(.+)`, then the literal `</span>`; the earlier
repetition backtracks last, as in Python. Returns the capture group. -/
def span_tail_match (mid : List Char) (s : List Char) : Option (List Char) :=
  (dot_plus_splits s).findSome? (fun p =>
    match matchLit mid p.2 with
    | none => none
    | some rest =>
      (dot_plus_splits rest).findSome? (fun q =>
        match matchLit "</span>".toList q.2 with
        | none => none
        | some _ => some q.1))

/-- `re.search` for the row patterns: try the full pattern at each
start position, leftmost first; return the capture group of the first
position where it matches. -/
def re_search_span (mid : List Char) : List Char → Option (List Char)
  | [] => none
  | c :: rest =>
    match matchLit "<span class=\"".toList (c :: rest) with
    | some r =>
      match span_tail_match mid r with
      | some g => some g
      | none => re_search_span mid rest
    | none => re_search_span mid rest

/-- `re.search(r'<span class=".+">(.+)</span>', str(username))[1]`. -/
def extract_username (markup : String) : Option String :=
  (re_search_span "\">".toList markup.toList).map (fun l => String.mk l)

/-- `re.search(r'<span class=".+">#(.+)</span>', str(discriminator))[1]`. -/
def extract_discriminator (markup : String) : Option String :=
  (re_search_span "\">#".toList markup.toList).map (fun l => String.mk l)

/-- The per-row tail of `get_friends`: extract the username text and
the discriminator text from the two sub-elements' outer markup and
build `FriendInfo(f"{username}#{discriminator}", username)`. `none`
models the `TypeError` the source would raise on a row where a regex
does not match. -/
def friend_of_row (username_markup discriminator_markup : String) :
    Option FriendInfo :=
  match extract_username username_markup,
        extract_discriminator discriminator_markup with
  | some u, some d => some { user_id := u ++ "#" ++ d, user_name := u }
  | _, _ => none

/-! ## ScrapeSession: `scrape_discord` -/

/-- Python string slicing `s[1:-1]` over the code points of `s`, as in
`str(returned_from_trio_run[2])[1:-1]`: start index `1`, stop index
`len - 1`, hence `len - 2` characters (clamping at zero built into
truncated subtraction exactly as Python clamps empty slices). -/
def py_slice_one_to_last (s : List Char) : List Char :=
  (s.drop 1).take (s.length - 2)

/-- The snapshot fields `scrape_discord` populates on the plugin:
`self.games`, `self.friends`, `self.user_email`. The `user_email`
field is also the value `authenticate` later persists through
`store_credentials`. -/
structure ScrapeSnapshot where
  games : List Game
  friends : List FriendInfo
  user_email : List Char

/-- `scrape_discord`, given the tuple `returned_from_trio_run =
(games, friends, raw_email)` produced by `start`: the snapshot email is
the raw extracted value with the Python slice `[1:-1]` applied. -/
def scrape_discord (games : List Game) (friends : List FriendInfo)
    (raw_email : List Char) : ScrapeSnapshot :=
  { games := games, friends := friends,
    user_email := py_slice_one_to_last raw_email }

/-! ## Concrete filesystems used to instantiate the inventory claims -/

/-- A filesystem with no directories and no files. -/
def fs_empty : FileSystem :=
  { is_dir := fun _ => false,
    listdir := fun _ => [],
    is_file := fun _ => false,
    read_app_info := fun _ => { application_id := "", name := "" } }

/-- A filesystem holding one install root `/roots/r` with one
subdirectory `sub` whose `application_info.json` carries
`application_id = "123"` and `name = "Foo"`. -/
def fs_single_game : FileSystem :=
  { is_dir := fun p => p == "/roots/r" || p == "/roots/r/sub",
    listdir := fun p => if p == "/roots/r" then ["sub"] else [],
    is_file := fun p => p == "/roots/r/sub/application_info.json",
    read_app_info := fun p =>
      if p == "/roots/r/sub/application_info.json" then
        { application_id := "123", name := "Foo" }
      else
        { application_id := "", name := "" } }

/-! ## Helper lemmas -/

/-- When no line of the output begins with `DevTools listening on`, the
output-scan loop falls through to its end-of-stream break with
`devtools_url` still unset. -/
theorem launch_output_scan_none : ∀ (lines : List String),
    (∀ l ∈ lines, py_startswith l "DevTools listening on" = false) →
    launch_output_scan lines = none
  | [], _ => rfl
  | l :: t, h => by
    have hl := h l (List.mem_cons_self l t)
    simp only [launch_output_scan, hl, Bool.false_eq_true, if_false]
    exact launch_output_scan_none t
      (fun x hx => h x (List.mem_cons_of_mem l hx))

/-! ## Claim theorems -/

/-- C1, counterexample: two distinct command requests of the same
connection — the `DOM.getDocument` and `Runtime.evaluate` frames sent
while scraping — carry the same correlation id, and the id sequence of
that two-command connection is the constant `[1, 1]`, not strictly
increasing. -/
theorem create_ws_json_id_reused :
    (create_ws_json "DOM.getDocument" none).id =
      (create_ws_json "Runtime.evaluate" none).id ∧
    create_ws_json "DOM.getDocument" none ≠
      create_ws_json "Runtime.evaluate" none ∧
    connection_request_ids
        [("DOM.getDocument", none), ("Runtime.evaluate", none)] = [1, 1] := by
  refine ⟨rfl, ?_, rfl⟩
  decide

/-- C1, as amended: every command request frame the client builds
carries the constant correlation id `1`; the id is reused by every
request on a connection rather than increasing. -/
theorem create_ws_json_id_constant (method : String)
    (params : Option String) : (create_ws_json method params).id = 1 := rfl

/-- C2, counterexample: the receive loop accepts a frame whose id
(`999`) differs from the id the request was sent with (`1`), because it
matches only on the presence of a `result` key — a false match the
claim rules out. -/
theorem recv_accepts_mismatched_id :
    recv_until_result
        [Json.obj [("id", Json.num 999), ("result", Json.obj [])]] =
      some (Json.obj [("id", Json.num 999), ("result", Json.obj [])]) ∧
    jsonGet (Json.obj [("id", Json.num 999), ("result", Json.obj [])])
        "id" = some (Json.num 999) ∧
    (create_ws_json "Runtime.evaluate" none).id = 1 ∧ (999 : Int) ≠ 1 :=
  ⟨rfl, rfl, rfl, by decide⟩

/-- C2, as amended: the receive loop accepts the first incoming frame
whose top-level object contains a `result` key, regardless of that
frame's id; frames without a `result` key are read and discarded. -/
theorem recv_until_result_first_result_frame (pre : List Json) (f : Json)
    (rest : List Json) (hpre : ∀ g ∈ pre, hasKey g "result" = false)
    (hf : hasKey f "result" = true) :
    recv_until_result (pre ++ f :: rest) = some f := by
  induction pre with
  | nil => simp [recv_until_result, hf]
  | cons g t ih =>
    have hg : hasKey g "result" = false := hpre g (List.mem_cons_self g t)
    simp only [List.cons_append, recv_until_result, hg, Bool.false_eq_true,
      if_false]
    exact ih (fun x hx => hpre x (List.mem_cons_of_mem g hx))

/-- C2, witness: a frame without a `result` key is discarded and the
following frame carrying one is accepted. -/
theorem recv_until_result_first_result_frame_witness :
    recv_until_result
        [Json.obj [("id", Json.num 7)],
         Json.obj [("id", Json.num 999), ("result", Json.null)]] =
      some (Json.obj [("id", Json.num 999), ("result", Json.null)]) :=
  recv_until_result_first_result_frame [Json.obj [("id", Json.num 7)]]
    (Json.obj [("id", Json.num 999), ("result", Json.null)]) []
    (by
      intro g hg
      rw [List.mem_singleton] at hg
      subst hg
      rfl)
    rfl

/-- C3, counterexample: a handshake failure on the very first attempt
(`rec_tries = 0`) propagates to the caller unchanged — it is not
retried and is not converted into `maxRetriesExceeded`. -/
theorem start_no_retry_on_handshake :
    start 0 (Except.error ScrapeError.handshakeFailed)
        (Except.ok ([], [], "user@example.com")) =
      Except.error ScrapeError.handshakeFailed ∧
    ScrapeError.handshakeFailed ≠ ScrapeError.maxRetriesExceeded :=
  ⟨rfl, by decide⟩

/-- C3, as amended: `start` performs no retry at all — when invoked
with `rec_tries ≤ 100`, a connection failure of any kind (including
`HandshakeFailed`) propagates immediately to the caller after a single
attempt; `maxRetriesExceeded` (`InvalidCredentials` in the source) is
raised exactly when `start` is invoked with `rec_tries > 100`, which
the entry-point call `start()` (with `rec_tries = 0`, never
incremented) never does. -/
theorem start_retry_free_behaviour :
    (∀ (rec_tries : Nat) (e : ScrapeError)
        (scrape : Except ScrapeError ScrapeResult), rec_tries ≤ 100 →
        start rec_tries (Except.error e) scrape = Except.error e) ∧
    (∀ (rec_tries : Nat) (connect : Except ScrapeError Unit)
        (scrape : Except ScrapeError ScrapeResult), 100 < rec_tries →
        start rec_tries connect scrape =
          Except.error ScrapeError.maxRetriesExceeded) := by
  constructor
  · intro rec_tries e scrape h
    have h1 : ¬ rec_tries > 100 := by omega
    simp [start, h1]
  · intro rec_tries connect scrape h
    simp [start, h]

/-- C3, witness: at `rec_tries = 0` a handshake failure propagates
unchanged, and at `rec_tries = 101` the guard raises
`maxRetriesExceeded` without attempting the connection. -/
theorem start_retry_free_behaviour_witness :
    start 0 (Except.error ScrapeError.handshakeFailed)
        (Except.ok ([], [], "w@example.com")) =
      Except.error ScrapeError.handshakeFailed ∧
    start 101 (Except.ok ()) (Except.ok ([], [], "w@example.com")) =
      Except.error ScrapeError.maxRetriesExceeded :=
  ⟨start_retry_free_behaviour.1 0 ScrapeError.handshakeFailed
      (Except.ok ([], [], "w@example.com")) (by decide),
   start_retry_free_behaviour.2 101 (Except.ok ())
      (Except.ok ([], [], "w@example.com")) (by decide)⟩

/-- C4, counterexample: a running process whose command line is exactly
`[exe, --remote-debugging-port=31337]` — so it already contains the
expected debugging argument — is nevertheless killed and relaunched,
because `RESTART_DISCORD = True` routes every command line of length 1
or 2 into the relaunch branch. -/
theorem debug_enabled_cmdline_still_relaunched :
    debugging_port_arg ∈ ["/usr/bin/Discord", debugging_port_arg] ∧
    prepare_and_discover_decision RESTART_DISCORD
        ["/usr/bin/Discord", debugging_port_arg] =
      SupervisorAction.relaunch ∧
    SupervisorAction.relaunch ≠ SupervisorAction.alreadyDebugging := by
  refine ⟨?_, rfl, by decide⟩
  simp

/-- C4, as amended: with `RESTART_DISCORD = True`, a matching process
is treated as already debugging — returning immediately with no kill
or relaunch — exactly when its command line has at least 3 entries and
the entry at index 1 is the expected debugging argument; a matching
process whose whole command line is `[exe, argument]` (length 2) is
killed and relaunched even though it carries the argument. -/
theorem prepare_decision_already_debugging (cmdline : List String)
    (h3 : 3 ≤ cmdline.length)
    (harg : cmdline.get? 1 = some debugging_port_arg) :
    prepare_and_discover_decision RESTART_DISCORD cmdline =
      SupervisorAction.alreadyDebugging := by
  have h1 : (cmdline.length == 1) = false := by
    simp only [beq_eq_false_iff_ne]
    omega
  have h2 : (cmdline.length == 2) = false := by
    simp only [beq_eq_false_iff_ne]
    omega
  simp [prepare_and_discover_decision, RESTART_DISCORD, h1, h2]
  rwa [List.get?_eq_getElem?] at harg

/-- C4, witness: a three-entry command line with the debugging argument
at index 1 is treated as already debugging. -/
theorem prepare_decision_already_debugging_witness :
    prepare_and_discover_decision RESTART_DISCORD
        ["/usr/bin/Discord", debugging_port_arg, "--no-sandbox"] =
      SupervisorAction.alreadyDebugging :=
  prepare_decision_already_debugging
    ["/usr/bin/Discord", debugging_port_arg, "--no-sandbox"]
    (by decide) rfl

/-- C5, counterexample: when the relaunched process's output ends
before any `DevTools listening on` line — here a single unrelated line
followed by end of stream — the supervisor returns successfully (with
no captured devtools identifier) rather than failing with
`LaunchFailed`. -/
theorem relaunch_output_end_returns_ok :
    relaunch_and_scan ["Starting updater."] = Except.ok none ∧
    (Except.ok none : Except SupervisorError (Option String)) ≠
      Except.error SupervisorError.launchFailed :=
  ⟨rfl, fun h => Except.noConfusion h⟩

/-- C5, as amended: when the startup output stream ends before any line
matching the DevTools-listening pattern is seen, the relaunch procedure
exits its scan loop and returns successfully with `devtools_url` left
unset; no `LaunchFailed` (indeed no error at all) is raised. -/
theorem relaunch_output_end_no_launch_failed (lines : List String)
    (h : ∀ l ∈ lines, py_startswith l "DevTools listening on" = false) :
    relaunch_and_scan lines = Except.ok none := by
  unfold relaunch_and_scan
  rw [launch_output_scan_none lines h]

/-- C5, witness: two ordinary startup lines followed by process exit
yield a successful return with no devtools identifier. -/
theorem relaunch_output_end_no_launch_failed_witness :
    relaunch_and_scan ["Starting updater.", "Checking for updates."] =
      Except.ok none :=
  relaunch_output_end_no_launch_failed
    ["Starting updater.", "Checking for updates."] (by decide)

/-- C6: two invocations of the storage-extraction script in the same
session (the same store) that differ only in the freshly randomized
helper identifier return the same extracted value — the identifier
names a locally defined helper that is immediately called by the same
name, so it cannot influence the value read from the store. -/
theorem extraction_nonce_independent (store : String → Option String)
    (nonce1 nonce2 data : String) :
    get_data_from_local_cache store nonce1 data =
      get_data_from_local_cache store nonce2 data := by
  simp [get_data_from_local_cache, session_response, eval_extraction_script,
    recv_until_result, hasKey, response_value, jsonGet, List.lookup]

/-- C7: an install-manager state whose `installationPaths` list is
empty yields the empty inventory as a success, and the result is the
same on every filesystem — no filesystem access can influence it. -/
theorem get_games_empty_paths (fs fs2 : FileSystem)
    (st : InstallationManagerStore) (h : st.installationPaths = []) :
    get_games fs st = [] ∧ get_games fs st = get_games fs2 st := by
  constructor <;> simp [get_games, h]

/-- C7, witness: the empty path list yields the empty inventory on two
concrete (and different) filesystems. -/
theorem get_games_empty_paths_witness :
    get_games fs_empty { installationPaths := [] } = [] ∧
    get_games fs_empty { installationPaths := [] } =
      get_games fs_single_game { installationPaths := [] } :=
  get_games_empty_paths fs_empty fs_single_game
    { installationPaths := [] } rfl

/-- C8: one existing install root with one subdirectory holding a
metadata file with application id `123` and name `Foo` yields exactly
one inventory entry with that id and display name. -/
theorem get_games_single_entry :
    get_games fs_single_game { installationPaths := ["/roots/r"] } =
      [{ game_id := "123", game_title := "Foo" }] := rfl

/-- C9: a contact row whose username markup is
`<span class="username-x">Alice</span>` and whose discriminator markup
is `<span class="discriminator-y">#1234</span>` produces the entry with
display name `Alice` and handle `Alice#1234`. -/
theorem friend_row_alice :
    friend_of_row "<span class=\"username-x\">Alice</span>"
        "<span class=\"discriminator-y\">#1234</span>" =
      some { user_id := "Alice#1234", user_name := "Alice" } := by
  decide

/-- C10: the email `scrape_discord` places in the snapshot (and that
`authenticate` then stores as the credential) is the raw extracted
value with its first and its last character removed. -/
theorem scrape_email_strips_first_last (games : List Game)
    (friends : List FriendInfo) (raw_email : List Char) :
    (scrape_discord games friends raw_email).user_email =
      (raw_email.drop 1).dropLast := by
  simp only [scrape_discord, py_slice_one_to_last]
  rw [List.dropLast_eq_take, List.length_drop]
  congr 1

end DiscordPlugin
